import Mathlib

set_option autoImplicit false

/-!
Verification of the privacy-services permission-store engine
(tcc_services.py and location_services.py).

The relational backend is modelled as an in-memory SQLite access table:
rows are lists of SQL values, the primary key is the first three columns
(service, client, client_type), and INSERT OR REPLACE / DELETE / COUNT are
given executable semantics.  The preference backend is modelled as a
daemon-state machine plus an association-list plist.  External
collaborators (the application identity resolver, os.path.abspath,
os.geteuid, chown success) are threaded in as explicit parameters.
-/

/-- Values stored in a relational row: INTEGER, TEXT or NULL. -/
inductive SQLValue where
  | intV  (n : Int)
  | textV (s : String)
  | nullV
deriving DecidableEq

/-- The access table of a TCC database: a fixed column count (schema
generation dependent) and the current rows. -/
structure Table where
  ncols : Nat
  rows  : List (List SQLValue)
deriving DecidableEq

/-- Conflict test for the PRIMARY KEY (service, client, client_type), the
first three columns of the access table (tcc_services.py, CREATE TABLE
access). -/
def sameKey : List SQLValue → List SQLValue → Bool
  | a :: b :: c :: _, d :: e :: f :: _ => a == d && b == e && c == f
  | _, _ => false

/-- Row predicate for WHERE service IS ? AND client IS ? (columns 0, 1). -/
def rowMatches (service client : SQLValue) : List SQLValue → Bool
  | s :: c :: _ => s == service && c == client
  | _ => false

/-- INSERT OR REPLACE INTO access VALUES (...): fails when the number of
supplied values differs from the table's column count (the SQL dialect
error), otherwise deletes any row with the same primary key and appends
the new row. -/
def execInsertOrReplace (t : Table) (vals : List SQLValue) : Except String Table :=
  if vals.length = t.ncols then
    .ok { t with rows := (t.rows.filter (fun r => !(sameKey r vals))) ++ [vals] }
  else
    .error ("table access has a different number of columns than values supplied")

/-- DELETE FROM access WHERE service IS ? AND client IS ?. -/
def execDelete (t : Table) (service client : SQLValue) : Table :=
  { t with rows := t.rows.filter (fun r => !(rowMatches service client r)) }

/-- SELECT count( * ) FROM access WHERE service IS ? AND client IS ?. -/
def execCount (t : Table) (service client : SQLValue) : Nat :=
  (t.rows.filter (fun r => rowMatches service client r)).length

/-- The empty access table created by TCCEdit.__create: five columns for
Darwin 12, six (with the trailing csreq BLOB column) otherwise. -/
def createAccessTable (version : Nat) : Table :=
  { ncols := if version == 12 then 5 else 6, rows := [] }

/-- Lower-casing, as Python str.lower on ASCII service keys. -/
def pyLower (s : String) : String := String.mk (s.toList.map Char.toLower)

/-- Upper-casing, as Python str.upper. -/
def pyUpper (s : String) : String := String.mk (s.toList.map Char.toUpper)

/-- Does the first list start with the second one. -/
def charsStartWith : List Char → List Char → Bool
  | _, [] => true
  | [], _ :: _ => false
  | c :: cs, p :: ps => c == p && charsStartWith cs ps

/-- Python str.startswith. -/
def pyStartsWith (s pre : String) : Bool := charsStartWith s.toList pre.toList

/-- Python str.endswith. -/
def pyEndsWith (s suf : String) : Bool :=
  charsStartWith s.toList.reverse suf.toList.reverse

/-- Drop leading characters that belong to the given character set. -/
def stripSetLeft (set : List Char) : List Char → List Char
  | [] => []
  | c :: cs => if set.contains c then stripSetLeft set cs else c :: cs

/-- Python str.lstrip with a character-set argument (it strips characters,
not a literal prefix string). -/
def pyLstrip (s set : String) : String := String.mk (stripSetLeft set.toList s.toList)

/-- Python str.rstrip with a character-set argument. -/
def pyRstrip (s set : String) : String :=
  String.mk ((stripSetLeft set.toList s.toList.reverse).reverse)

/-- Split a character list at every occurrence of the separator. -/
def splitOnChar (sep : Char) : List Char → List (List Char)
  | [] => [[]]
  | c :: cs =>
    let r := splitOnChar sep cs
    if c == sep then [] :: r
    else
      match r with
      | [] => [[c]]
      | g :: gs => (c :: g) :: gs

/-- Python uuid.split with a one-character separator. -/
def pySplitDash (s : String) : List String := (splitOnChar '-' s.toList).map String.mk

/-- The available_services table of tcc_services.py: service key maps to
(internal service name, database class, Darwin version introduced). -/
def available_services : List (String × (String × String × Nat)) :=
  [(("accessibility"), (("kTCCServiceAccessibility"), ("root"),  13)),
   (("contacts"),      (("kTCCServiceAddressBook"),   ("local"), 12)),
   (("icloud"),        (("kTCCServiceUbiquity"),      ("local"), 13)),
   (("calendar"),      (("kTCCServiceCalendar"),      ("local"), 13)),
   (("reminders"),     (("kTCCServiceReminders"),     ("local"), 13))]

/-- Dictionary lookup in available_services. -/
def lookupService (k : String) : Option (String × String × Nat) :=
  (available_services.find? (fun e => e.1 == k)).map (fun e => e.2)

/-- Per-session configuration of a TCCEdit object: the Darwin version, the
default service captured at construction, the admin override flag, and the
two external target resolvers (AppInfo bundle-id lookup and
os.path.abspath). -/
structure TCCSession where
  version : Nat
  service : Option String
  admin   : Bool
  appinfo : String → String
  abspath : String → String

/-- The two live connections of a TCCEdit object: the root connection is
absent for unprivileged callers, the local connection is always open. -/
structure TCCState where
  root    : Option Table
  localDB : Table
deriving DecidableEq

/-- Python truthiness of the stored service string (None and the empty
string are falsy). -/
def optTruthy : Option String → Bool
  | none => false
  | some s => !(s == "")

/-- The service-selection logic shared by insert, remove and disable
(tcc_services.py lines 165-169, 230-234, 280-284): the operation proceeds
with the session default service only when the service argument is None
and the default is truthy; in every other case the method returns early. -/
def serviceToUse (sess : TCCSession) (service : Option String) : Option String :=
  match service, sess.service with
  | none, some sv => if sv == "" then none else some sv
  | _, _ => none

/-- Target resolution: AppInfo(target).bid normally, os.path.abspath under
the admin override flag. -/
def resolveTarget (sess : TCCSession) (t : String) : String :=
  if sess.admin then sess.abspath t else sess.appinfo t

/-- self.connections lookup by a service's database class. -/
def connectionFor (st : TCCState) (cls : String) : Option Table :=
  if cls == "root" then st.root else some st.localDB

/-- Write an updated table back into the connection it came from. -/
def setConnection (st : TCCState) (cls : String) (tbl : Table) : TCCState :=
  if cls == "root" then { st with root := some tbl } else { st with localDB := tbl }

/-- The row supplied by TCCEdit.insert: five values on Darwin 12, six with
a trailing NULL otherwise (allowed = 1, prompt_count = 0). -/
def insertValues (version : Nat) (name target : String) : List SQLValue :=
  if version == 12 then
    [.textV name, .textV target, .intV 0, .intV 1, .intV 0]
  else
    [.textV name, .textV target, .intV 0, .intV 1, .intV 0, .nullV]

/-- The row supplied by TCCEdit.disable: allowed = 0, prompt_count = 1,
with the trailing NULL only on Darwin 13 and later. -/
def disableValues (version : Nat) (name target : String) : List SQLValue :=
  if version == 12 then
    [.textV name, .textV target, .intV 0, .intV 0, .intV 1]
  else
    [.textV name, .textV target, .intV 0, .intV 0, .intV 1, .nullV]

/-- TCCEdit.insert: early return on a missing target or on the
service-selection logic, validation of the service key and of the minimum
Darwin version, connection lookup, then a committed INSERT OR REPLACE. -/
def TCCEdit.insert (sess : TCCSession) (st : TCCState)
    (target service : Option String) : Except String TCCState :=
  match target with
  | none => .ok st
  | some t0 =>
    let t := resolveTarget sess t0
    match serviceToUse sess service with
    | none => .ok st
    | some sv0 =>
      let sv := pyLower sv0
      match lookupService sv with
      | none => .error (("Invalid service provided: ") ++ sv)
      | some svc =>
        if sess.version < svc.2.2 then
          .error (("Service ") ++ sv ++ (" does not exist on this version of OS X."))
        else
          match connectionFor st svc.2.1 with
          | none => .error (("Must be root to modify ") ++ sv)
          | some tbl =>
            match execInsertOrReplace tbl (insertValues sess.version svc.1 t) with
            | .error e => .error e
            | .ok tbl2 => .ok (setConnection st svc.2.1 tbl2)

/-- TCCEdit.remove: early return on a missing target or on the
service-selection logic, validation of the service key (no version gate),
connection lookup, then a committed DELETE. -/
def TCCEdit.remove (sess : TCCSession) (st : TCCState)
    (target service : Option String) : Except String TCCState :=
  match target with
  | none => .ok st
  | some t0 =>
    let t := resolveTarget sess t0
    match serviceToUse sess service with
    | none => .ok st
    | some sv0 =>
      let sv := pyLower sv0
      match lookupService sv with
      | none => .error (("Invalid service provided: ") ++ sv)
      | some svc =>
        match connectionFor st svc.2.1 with
        | none => .error ("Must be root to modify this service!")
        | some tbl =>
          .ok (setConnection st svc.2.1 (execDelete tbl (.textV svc.1) (.textV t)))

/-- TCCEdit.disable: as remove, but it counts the matching rows first and
performs the disabling INSERT OR REPLACE only when the count is nonzero
(tcc_services.py lines 304-315); on a zero count it only commits. -/
def TCCEdit.disable (sess : TCCSession) (st : TCCState)
    (target service : Option String) : Except String TCCState :=
  match target with
  | none => .ok st
  | some t0 =>
    let t := resolveTarget sess t0
    match serviceToUse sess service with
    | none => .ok st
    | some sv0 =>
      let sv := pyLower sv0
      match lookupService sv with
      | none => .error (("Invalid service provided: ") ++ sv)
      | some svc =>
        match connectionFor st svc.2.1 with
        | none => .error ("Must be root to modify this service!")
        | some tbl =>
          if execCount tbl (.textV svc.1) (.textV t) ≠ 0 then
            match execInsertOrReplace tbl (disableValues sess.version svc.1 t) with
            | .error e => .error e
            | .ok tbl2 => .ok (setConnection st svc.2.1 tbl2)
          else .ok st

/-- The local-database-path selection of TCCEdit.__init__ (tcc_services.py
lines 69-111).  euid models os.geteuid(); the returned paths are the
pre-expanduser strings.  The root-user guard raises only when the user is
root, forceroot is unset and the service's database class is not
root-level; the service lookup happens only when the first two conjuncts
hold (mirroring Python's short-circuit evaluation). -/
def TCCEdit.localPathCheck (service user : String) (template : Bool)
    (lang : String) (forceroot : Bool) (euid : Nat) : Except String String :=
  if template then
    if euid ≠ 0 then .error ("Only root user may modify the User Template.")
    else .ok (("/System/Library/User Template/") ++ lang ++
      (".lproj/Library/Application Support/com.apple.TCC/TCC.db"))
  else
    if user == "root" && !forceroot then
      match lookupService service with
      | none => .error (("KeyError: ") ++ service)
      | some svc =>
        if svc.2.1 != "root" then
          .error ("Will not create a TCC database file for root.")
        else
          .ok (("~") ++ user ++ ("/Library/Application Support/com.apple.TCC/TCC.db"))
    else .ok (("~") ++ user ++ ("/Library/Application Support/com.apple.TCC/TCC.db"))

/-- State of the locationd launchd item. -/
inductive DaemonState where
  | Running
  | Stopped
deriving DecidableEq

/-- Observable state of the Location Services machinery: whether the
locationd daemon is loaded and whether /var/db/locationd is owned by the
_locationd user (the chown -R target of location_services.enable). -/
structure LocState where
  daemon : DaemonState
  ownershipRepaired : Bool
deriving DecidableEq

/-- The module-level disable of location_services.py: launchctl unload of
the locationd launchd item.  It touches no file ownership. -/
def location_services.unloadDaemon (st : LocState) : LocState :=
  { st with daemon := .Stopped }

/-- The module-level enable of location_services.py: chown -R
_locationd:_locationd /var/db/locationd first (raising when it fails, in
which case launchctl is never reached), then launchctl load.  chownOk
models the exit status of the external chown call. -/
def location_services.loadDaemon (chownOk : Bool) (st : LocState) : Except String LocState :=
  if chownOk then .ok { st with daemon := .Running, ownershipRepaired := true }
  else .error ("Unable to repair permissions: /var/db/locationd")

/-- LSEdit.__init__ (location_services.py lines 26-54): refuse non-root
callers and Darwin versions before 10, then unload the locationd daemon.
No ownership repair happens here. -/
def LSEdit.init (euid version : Nat) (st : LocState) : Except String LocState :=
  if euid ≠ 0 then .error ("Must be root to modify Location Services!")
  else if version < 10 then
    .error ("Location Services is not supported in this version of OS X.")
  else .ok (location_services.unloadDaemon st)

/-- LSEdit.__exit__: unconditionally re-enable the locationd system. -/
def LSEdit.exit (chownOk : Bool) (st : LocState) : Except String LocState :=
  location_services.loadDaemon chownOk st

/-- One whole with-statement session over an already constructible LSEdit
(root caller, supported version): __init__ unloads the daemon, the body
runs (possibly raising: its error is the first component), and __exit__
runs on every exit path; an error raised by __exit__ itself replaces the
propagated one, as in Python. -/
def runLSSession (chownOk : Bool) (body : LocState → Option String × LocState)
    (st : LocState) : Option String × LocState :=
  let st1 := location_services.unloadDaemon st
  let p := body st1
  match location_services.loadDaemon chownOk p.2 with
  | .ok st2 => (p.1, st2)
  | .error e => (some e, p.2)

/-- Directory holding the per-host locationd preference files. -/
def location_services.ls_dir : String := "/var/db/locationd/Library/Preferences/ByHost/"

/-- The candidate extraction of enable_global (location_services.py lines
187-193): keep listed names with the right suffix and the right leading
pattern, strip both with Python's character-set lstrip and rstrip, and
drop any candidate still containing a dot. -/
def location_services.potentialsOf (listing : List String) : List String :=
  ((listing.filter
      (fun x => pyEndsWith x (".plist") && pyStartsWith x ("com.apple.locationd."))).map
    (fun x => pyRstrip (pyLstrip x ("com.apple.locationd.")) (".plist"))).filter
  (fun x => !(x.toList.contains '.'))

/-- The disambiguation test of enable_global (lines 195-206): the whole
hardware UUID matches the candidate exactly, lower-cased or upper-cased,
or one of its hyphen-separated parts does. -/
def location_services.uuidMatches (uuid : String) (id : String) : Bool :=
  uuid == id || pyLower uuid == id || pyUpper uuid == id ||
    (pySplitDash uuid).any (fun part => part == id || pyLower part == id || pyUpper part == id)

/-- The store-locator part of enable_global (lines 180-227): use the file
named by the hardware UUID when present; otherwise scan the directory
listing, succeed on a single candidate outright, disambiguate several
candidates via uuidMatches (first match wins), and fail when no candidate
or no match remains. -/
def location_services.locateGlobalPlist (uuid : String) (expectedPresent : Bool)
    (listing : List String) : Except String String :=
  if expectedPresent then
    .ok (location_services.ls_dir ++ ("com.apple.locationd.") ++ uuid ++ (".plist"))
  else
    let potentials := location_services.potentialsOf listing
    if 1 < potentials.length then
      match potentials.find? (location_services.uuidMatches uuid) with
      | some id =>
        .ok (location_services.ls_dir ++ ("com.apple.locationd.") ++ id ++ (".plist"))
      | none => .error ("Could not locate Location Services plist file")
    else if potentials.length == 1 then
      .ok (location_services.ls_dir ++ ("com.apple.locationd.") ++
        (potentials.headD ("")) ++ (".plist"))
    else .error ("No Location Services global property list found")

/-- A preference file: an association list of keys and integer values. -/
abbrev Plist := List (String × Int)

/-- PlistEditor.write: set a key to a value, replacing an existing entry
or appending a new one. -/
def plistWrite (p : Plist) (k : String) (v : Int) : Plist :=
  if p.any (fun kv => kv.1 == k) then
    p.map (fun kv => if kv.1 == k then (k, v) else kv)
  else p ++ [(k, v)]

/-- Read a key back from a preference file. -/
def plistLookup (p : Plist) (k : String) : Option Int :=
  (p.find? (fun kv => kv.1 == k)).map (fun kv => kv.2)

/-- The final write step of enable_global (location_services.py lines
218-223): the boolean is coerced to an integer and written under the
generation-dependent key name. -/
def enable_global_write (enable : Bool) (version : Nat) (p : Plist) : Plist :=
  let value : Int := if enable then 1 else 0
  if version < 14 then plistWrite p ("LocationServicesEnabled") value
  else plistWrite p ("LocationServicesEnabledIn7.0") value

/-- A generation-13 session whose default service is contacts, with
identity target resolvers. -/
def sess13 : TCCSession :=
  { version := 13, service := some ("contacts"), admin := false,
    appinfo := fun s => s, abspath := fun s => s }

/-- A generation-13 session with no default service. -/
def sessNoDef : TCCSession :=
  { version := 13, service := none, admin := false,
    appinfo := fun s => s, abspath := fun s => s }

/-- An unprivileged generation-13 store with an empty access table. -/
def st13 : TCCState := { root := none, localDB := createAccessTable 13 }

/-- The store after inserting com.apple.Safari into contacts on st13. -/
def st13ins : TCCState :=
  { root := none,
    localDB := { ncols := 6, rows :=
      [[.textV ("kTCCServiceAddressBook"), .textV ("com.apple.Safari"),
        .intV 0, .intV 1, .intV 0, .nullV]] } }

/-- The store holding the disabled row for com.apple.Safari in contacts. -/
def st13dis : TCCState :=
  { root := none,
    localDB := { ncols := 6, rows :=
      [[.textV ("kTCCServiceAddressBook"), .textV ("com.apple.Safari"),
        .intV 0, .intV 0, .intV 1, .nullV]] } }

/-- A store that already holds a disabled row for com.apple.Safari in
contacts before any call. -/
def st13pre : TCCState :=
  { root := none,
    localDB := { ncols := 6, rows :=
      [[.textV ("kTCCServiceAddressBook"), .textV ("com.apple.Safari"),
        .intV 0, .intV 0, .intV 1, .nullV]] } }

/-- A ByHost directory listing with two candidate files neither of which
matches the hardware UUID ABC. -/
def listingW : List String :=
  [("com.apple.locationd.X.plist"), ("com.apple.locationd.Y.plist")]

theorem serviceToUse_default (sess : TCCSession) (sv : String)
    (hsvc : sess.service = some sv) (hsv : sv ≠ "") :
    serviceToUse sess none = some sv := by
  simp [serviceToUse, hsvc, hsv]

theorem serviceToUse_noDefault (sess : TCCSession)
    (h : optTruthy sess.service = false) :
    serviceToUse sess none = none := by
  cases hs : sess.service with
  | none => simp [serviceToUse, hs]
  | some s =>
    rw [hs] at h
    simp [optTruthy] at h
    simp [serviceToUse, hs, h]

theorem insertValues_shape (v : Nat) (name t : String) :
    ∃ w, insertValues v name t = .textV name :: .textV t :: .intV 0 :: w := by
  by_cases h : (v == 12 : Bool) <;> simp [insertValues, h]

theorem disableValues_shape (v : Nat) (name t : String) :
    ∃ w, disableValues v name t = .textV name :: .textV t :: .intV 0 :: w := by
  by_cases h : (v == 12 : Bool) <;> simp [disableValues, h]

theorem sameKey_matches_of_headKey (a b c : SQLValue) (w r : List SQLValue)
    (h : sameKey r (a :: b :: c :: w) = true) :
    rowMatches a b r = true := by
  match r with
  | [] => simp [sameKey] at h
  | [x] => simp [sameKey] at h
  | [x, y] => simp [sameKey] at h
  | x :: y :: z :: rest =>
    simp only [sameKey, Bool.and_eq_true, beq_iff_eq] at h
    simp [rowMatches, h.1.1, h.1.2]

theorem rowMatches_insertValues (v : Nat) (name t : String) :
    rowMatches (.textV name) (.textV t) (insertValues v name t) = true := by
  by_cases h : (v == 12 : Bool) <;> simp [insertValues, h, rowMatches]

theorem rowMatches_disableValues (v : Nat) (name t : String) :
    rowMatches (.textV name) (.textV t) (disableValues v name t) = true := by
  by_cases h : (v == 12 : Bool) <;> simp [disableValues, h, rowMatches]

theorem connectionFor_setConnection (st : TCCState) (cls : String) (tbl : Table) :
    connectionFor (setConnection st cls tbl) cls = some tbl := by
  by_cases h : (cls == "root" : Bool) <;> simp [connectionFor, setConnection, h]

theorem setConnection_setConnection (st : TCCState) (cls : String) (a b : Table) :
    setConnection (setConnection st cls a) cls b = setConnection st cls b := by
  by_cases h : (cls == "root" : Bool) <;> cases st <;> simp [setConnection, h]

theorem setConnection_eq_self (st : TCCState) (cls : String) (tbl : Table)
    (h : connectionFor st cls = some tbl) :
    setConnection st cls tbl = st := by
  by_cases hc : (cls == "root" : Bool)
  · simp [connectionFor, hc] at h
    cases st
    simp_all [setConnection]
  · simp [connectionFor, hc] at h
    cases st
    simp_all [setConnection]

theorem filter_notSameKey_of_absent (tbl : Table) (v : Nat) (name t : String)
    (habsent : ∀ r ∈ tbl.rows, rowMatches (.textV name) (.textV t) r = false) :
    tbl.rows.filter (fun r => !(sameKey r (insertValues v name t))) = tbl.rows := by
  apply List.filter_eq_self.mpr
  intro r hr
  cases hsk : sameKey r (insertValues v name t) with
  | false => simp
  | true =>
    exfalso
    obtain ⟨w, hw⟩ := insertValues_shape v name t
    rw [hw] at hsk
    have hm := sameKey_matches_of_headKey _ _ _ _ _ hsk
    rw [habsent r hr] at hm
    exact Bool.false_ne_true hm

theorem insert_absent_ok (sess : TCCSession) (st : TCCState) (t sv name cls : String)
    (minv : Nat) (tbl : Table)
    (hsvc : sess.service = some sv) (hsv : sv ≠ "")
    (hlook : lookupService (pyLower sv) = some (name, cls, minv))
    (hver : minv ≤ sess.version)
    (hconn : connectionFor st cls = some tbl)
    (hcols : (insertValues sess.version name (resolveTarget sess t)).length = tbl.ncols)
    (habsent : ∀ r ∈ tbl.rows,
      rowMatches (.textV name) (.textV (resolveTarget sess t)) r = false) :
    TCCEdit.insert sess st (some t) none =
      .ok (setConnection st cls
        { tbl with rows := tbl.rows ++ [insertValues sess.version name (resolveTarget sess t)] }) := by
  have hs := serviceToUse_default sess sv hsvc hsv
  have hnl : ¬ sess.version < minv := Nat.not_lt.mpr hver
  have hfil := filter_notSameKey_of_absent tbl sess.version name (resolveTarget sess t) habsent
  simp [TCCEdit.insert, hs, hlook, hconn, hnl, execInsertOrReplace, hcols, hfil]

/-- C1: the claim says that disable on an absent (service_name, target) row
first inserts and then upserts allowed=0, prompt_count=1, leaving a
disabled row behind, equivalently that disable on an absent record equals
insert followed by disable.  The code guards the upsert with a nonzero
count and never inserts, so disable on an absent record leaves the store
unchanged and empty, while insert followed by disable leaves a disabled
row: the code contradicts its own docstring. -/
theorem c1_disable_absent_leaves_no_row :
    (TCCEdit.disable sess13 st13 (some ("com.apple.Safari")) none = .ok st13 ∧
     st13.localDB.rows = []) ∧
    (TCCEdit.insert sess13 st13 (some ("com.apple.Safari")) none = .ok st13ins ∧
     TCCEdit.disable sess13 st13ins (some ("com.apple.Safari")) none = .ok st13dis) ∧
    st13 ≠ st13dis :=
  ⟨⟨rfl, rfl⟩, ⟨rfl, rfl⟩, by decide⟩

/-- C2 counterexample: on a generation-13 session, inserting
com.apple.Safari into contacts yields the row with prompt_count 0, not the
claimed row with prompt_count 1. -/
theorem c2_counterexample :
    TCCEdit.insert sess13 st13 (some ("com.apple.Safari")) none = .ok st13ins ∧
    st13ins.localDB.rows ≠
      [[.textV ("kTCCServiceAddressBook"), .textV ("com.apple.Safari"),
        .intV 0, .intV 1, .intV 1, .nullV]] :=
  ⟨rfl, by decide⟩

/-- C2 (amended): for every open relational session of generation at least
13 and every valid (target, service) pair, insert upserts the row
(service_name, target, 0, allowed=1, prompt_count=0, NULL); in particular
the generation-13 scenario stores exactly the row
(kTCCServiceAddressBook, com.apple.Safari, 0, 1, 0, NULL). -/
theorem c2_insert_row_amended (sess : TCCSession) (st : TCCState)
    (t sv name cls : String) (minv : Nat) (tbl : Table)
    (hsvc : sess.service = some sv) (hsv : sv ≠ "")
    (hlook : lookupService (pyLower sv) = some (name, cls, minv))
    (hver : minv ≤ sess.version) (h13 : 13 ≤ sess.version)
    (hconn : connectionFor st cls = some tbl) (hcols : tbl.ncols = 6)
    (habsent : ∀ r ∈ tbl.rows,
      rowMatches (.textV name) (.textV (resolveTarget sess t)) r = false) :
    TCCEdit.insert sess st (some t) none =
      .ok (setConnection st cls
        { tbl with rows := tbl.rows ++
          [[.textV name, .textV (resolveTarget sess t), .intV 0, .intV 1, .intV 0, .nullV]] }) ∧
    TCCEdit.insert sess13 st13 (some ("com.apple.Safari")) none = .ok st13ins ∧
    st13ins.localDB.rows =
      [[.textV ("kTCCServiceAddressBook"), .textV ("com.apple.Safari"),
        .intV 0, .intV 1, .intV 0, .nullV]] := by
  have h12 : (sess.version == 12) = false := by
    simp only [beq_eq_false_iff_ne]
    omega
  have hinsv : insertValues sess.version name (resolveTarget sess t) =
      [.textV name, .textV (resolveTarget sess t), .intV 0, .intV 1, .intV 0, .nullV] := by
    simp [insertValues, h12]
  have hcols2 : (insertValues sess.version name (resolveTarget sess t)).length = tbl.ncols := by
    rw [hinsv, hcols]
    rfl
  refine ⟨?_, rfl, rfl⟩
  have h := insert_absent_ok sess st t sv name cls minv tbl hsvc hsv hlook hver hconn
    hcols2 habsent
  rw [hinsv] at h
  exact h

/-- Witness for c2_insert_row_amended at the concrete generation-13
scenario. -/
theorem c2_insert_row_amended_witness :
    TCCEdit.insert sess13 st13 (some ("com.apple.Safari")) none =
      .ok (setConnection st13 ("local")
        { (createAccessTable 13) with rows := (createAccessTable 13).rows ++
          [[.textV ("kTCCServiceAddressBook"),
            .textV (resolveTarget sess13 ("com.apple.Safari")),
            .intV 0, .intV 1, .intV 0, .nullV]] }) :=
  (c2_insert_row_amended sess13 st13 ("com.apple.Safari") ("contacts")
    ("kTCCServiceAddressBook") ("local") 12 (createAccessTable 13)
    rfl (by decide) (by decide) (by decide) (by decide) rfl rfl
    (by simp [createAccessTable])).1

/-- C3: whenever the service argument of insert, remove or disable is
explicitly supplied, the call returns at once with the store unchanged and
no error; the default service drives a mutation only when the argument is
omitted and the session default is set (truthy). -/
theorem c3_explicit_service_noop (sess : TCCSession) (st : TCCState) (t sv : String) :
    (TCCEdit.insert sess st (some t) (some sv) = .ok st ∧
     TCCEdit.remove sess st (some t) (some sv) = .ok st ∧
     TCCEdit.disable sess st (some t) (some sv) = .ok st) ∧
    (optTruthy sess.service = false →
      TCCEdit.insert sess st (some t) none = .ok st ∧
      TCCEdit.remove sess st (some t) none = .ok st ∧
      TCCEdit.disable sess st (some t) none = .ok st) := by
  constructor
  · exact ⟨rfl, rfl, rfl⟩
  · intro h
    have hs := serviceToUse_noDefault sess h
    exact ⟨by simp [TCCEdit.insert, hs], by simp [TCCEdit.remove, hs],
      by simp [TCCEdit.disable, hs]⟩

/-- Witness for c3_explicit_service_noop on a session with no default
service. -/
theorem c3_explicit_service_noop_witness :
    TCCEdit.insert sessNoDef st13 (some ("x")) (some ("contacts")) = .ok st13 ∧
    TCCEdit.insert sessNoDef st13 (some ("x")) none = .ok st13 :=
  ⟨(c3_explicit_service_noop sessNoDef st13 ("x") ("contacts")).1.1,
   ((c3_explicit_service_noop sessNoDef st13 ("x") ("contacts")).2 (by decide)).1⟩

/-- C4 counterexample: with user root, no forceroot and the root-class
service accessibility, construction is not refused, contradicting the
claim that the refusal is independent of the targeted service. -/
theorem c4_counterexample :
    lookupService ("accessibility") =
      some (("kTCCServiceAccessibility"), ("root"), 13) ∧
    TCCEdit.localPathCheck ("accessibility") ("root") false ("English") false 501 =
      .ok (("~") ++ ("root") ++ ("/Library/Application Support/com.apple.TCC/TCC.db")) :=
  ⟨rfl, rfl⟩

/-- C4 (amended): a non-template construction for user root without
forceroot is refused exactly when the targeted service's database class is
not root-level; for a root-class service it proceeds. -/
theorem c4_root_refusal_amended (service lang : String) (euid : Nat)
    (name cls : String) (minv : Nat)
    (h : lookupService service = some (name, cls, minv)) :
    (cls ≠ "root" →
      TCCEdit.localPathCheck service ("root") false lang false euid =
        .error ("Will not create a TCC database file for root.")) ∧
    (cls = "root" →
      TCCEdit.localPathCheck service ("root") false lang false euid =
        .ok (("~") ++ ("root") ++ ("/Library/Application Support/com.apple.TCC/TCC.db"))) := by
  constructor
  · intro hcls
    simp [TCCEdit.localPathCheck, h, hcls]
  · intro hcls
    simp [TCCEdit.localPathCheck, h, hcls]

/-- Witness for c4_root_refusal_amended at the two concrete services
contacts (local class, refused) and accessibility (root class, allowed). -/
theorem c4_root_refusal_amended_witness :
    TCCEdit.localPathCheck ("contacts") ("root") false ("English") false 0 =
      .error ("Will not create a TCC database file for root.") ∧
    TCCEdit.localPathCheck ("accessibility") ("root") false ("English") false 0 =
      .ok (("~") ++ ("root") ++ ("/Library/Application Support/com.apple.TCC/TCC.db")) :=
  ⟨(c4_root_refusal_amended ("contacts") ("English") 0
      ("kTCCServiceAddressBook") ("local") 12 rfl).1 (by decide),
   (c4_root_refusal_amended ("accessibility") ("English") 0
      ("kTCCServiceAccessibility") ("root") 13 rfl).2 rfl⟩

/-- C5 counterexample: opening a preference-backend session succeeds and
stops the daemon while leaving the store ownership unrepaired, and the
ownership repair failure surfaces at session close instead, contradicting
the claim that the repair happens (and can fail) at session open. -/
theorem c5_counterexample :
    LSEdit.init 0 13 { daemon := .Running, ownershipRepaired := false } =
      .ok { daemon := .Stopped, ownershipRepaired := false } ∧
    LSEdit.exit false { daemon := .Stopped, ownershipRepaired := false } =
      .error ("Unable to repair permissions: /var/db/locationd") :=
  ⟨rfl, rfl⟩

/-- C5 (amended): for every preference-backend session, opening only stops
the daemon and never touches ownership; the ownership repair happens at
session close as the first step of restarting the daemon, and it is there
that an unfixable ownership fails the session. -/
theorem c5_repair_at_close_amended (st : LocState) (euid version : Nat)
    (h0 : euid = 0) (h10 : 10 ≤ version) :
    LSEdit.init euid version st = .ok { st with daemon := .Stopped } ∧
    LSEdit.exit true st = .ok { st with daemon := .Running, ownershipRepaired := true } ∧
    LSEdit.exit false st = .error ("Unable to repair permissions: /var/db/locationd") := by
  subst h0
  refine ⟨?_, rfl, rfl⟩
  simp [LSEdit.init, location_services.unloadDaemon, Nat.not_lt.mpr h10]

/-- Witness for c5_repair_at_close_amended at a concrete running state. -/
theorem c5_repair_at_close_amended_witness :
    LSEdit.init 0 13 { daemon := .Running, ownershipRepaired := true } =
      .ok { daemon := .Stopped, ownershipRepaired := true } :=
  (c5_repair_at_close_amended { daemon := .Running, ownershipRepaired := true }
    0 13 rfl (by decide)).1

/-- C6: for every session body, including one that raises, the close-time
restart executes: the final daemon state is Running (with ownership
repaired), and a body error still propagates out of the session. -/
theorem c6_close_restarts_daemon (body : LocState → Option String × LocState)
    (st : LocState) :
    (runLSSession true body st).2 =
      { daemon := .Running, ownershipRepaired := true } ∧
    (runLSSession true body st).1 = (body (location_services.unloadDaemon st)).1 := by
  simp [runLSSession, location_services.loadDaemon]

/-- C7: when the expected per-host preference file is absent, the locator
scans the directory listing: with zero candidates it fails, with several
candidates and no UUID match (exact, case-folded or per-hyphen-segment)
it fails, and with several candidates and a match it picks the first
matching candidate. -/
theorem c7_locator_fallback (uuid : String) (listing : List String) :
    (location_services.potentialsOf listing = [] →
      location_services.locateGlobalPlist uuid false listing =
        .error ("No Location Services global property list found")) ∧
    (1 < (location_services.potentialsOf listing).length →
      (location_services.potentialsOf listing).find?
        (location_services.uuidMatches uuid) = none →
      location_services.locateGlobalPlist uuid false listing =
        .error ("Could not locate Location Services plist file")) ∧
    (∀ id, 1 < (location_services.potentialsOf listing).length →
      (location_services.potentialsOf listing).find?
        (location_services.uuidMatches uuid) = some id →
      location_services.locateGlobalPlist uuid false listing =
        .ok (location_services.ls_dir ++ ("com.apple.locationd.") ++ id ++ (".plist"))) := by
  refine ⟨?_, ?_, ?_⟩
  · intro h
    simp [location_services.locateGlobalPlist, h]
  · intro h1 h2
    simp [location_services.locateGlobalPlist, h1, h2]
  · intro id h1 h2
    simp [location_services.locateGlobalPlist, h1, h2]

/-- Witness for c7_locator_fallback: two candidates, neither matching the
UUID ABC, so the locator fails. -/
theorem c7_locator_fallback_witness :
    location_services.locateGlobalPlist ("ABC") false listingW =
      .error ("Could not locate Location Services plist file") :=
  (c7_locator_fallback ("ABC") listingW).2.1 (by decide) (by decide)

/-- C8: a generation-12 session issues five-value rows without the blob
argument, a generation of at least 13 issues six values ending in NULL,
and crossing the dialects (blob on 12, no blob on 13 and later) is an
arity error against the generation's access table. -/
theorem c8_dialect (v : Nat) (name t : String) (h13 : 13 ≤ v) :
    insertValues 12 name t = [.textV name, .textV t, .intV 0, .intV 1, .intV 0] ∧
    disableValues 12 name t = [.textV name, .textV t, .intV 0, .intV 0, .intV 1] ∧
    insertValues v name t = [.textV name, .textV t, .intV 0, .intV 1, .intV 0, .nullV] ∧
    disableValues v name t = [.textV name, .textV t, .intV 0, .intV 0, .intV 1, .nullV] ∧
    execInsertOrReplace (createAccessTable 12) (insertValues v name t) =
      .error ("table access has a different number of columns than values supplied") ∧
    execInsertOrReplace (createAccessTable v) (insertValues 12 name t) =
      .error ("table access has a different number of columns than values supplied") := by
  have h12 : (v == 12) = false := by
    simp only [beq_eq_false_iff_ne]
    omega
  refine ⟨rfl, rfl, ?_, ?_, ?_, ?_⟩
  · simp [insertValues, h12]
  · simp [disableValues, h12]
  · simp [execInsertOrReplace, insertValues, createAccessTable, h12]
  · simp [execInsertOrReplace, insertValues, createAccessTable, h12]

/-- Witness for c8_dialect at generation 13 on the contacts service. -/
theorem c8_dialect_witness :
    insertValues 13 ("kTCCServiceAddressBook") ("com.apple.Safari") =
      [.textV ("kTCCServiceAddressBook"), .textV ("com.apple.Safari"),
       .intV 0, .intV 1, .intV 0, .nullV] ∧
    execInsertOrReplace (createAccessTable 12)
        (insertValues 13 ("kTCCServiceAddressBook") ("com.apple.Safari")) =
      .error ("table access has a different number of columns than values supplied") :=
  ⟨(c8_dialect 13 ("kTCCServiceAddressBook") ("com.apple.Safari") (by decide)).2.2.1,
   (c8_dialect 13 ("kTCCServiceAddressBook") ("com.apple.Safari") (by decide)).2.2.2.2.1⟩

theorem findMap_write (k : String) (v : Int) :
    ∀ p : Plist, p.any (fun kv => kv.1 == k) = true →
      plistLookup (p.map (fun kv => if kv.1 == k then (k, v) else kv)) k = some v := by
  intro p
  induction p with
  | nil => intro h; simp at h
  | cons hd tl ih =>
    intro h
    by_cases hh : (hd.1 == k : Bool)
    · have hfhd : (if (hd.1 == k : Bool) then (k, v) else hd) = (k, v) := by
        rw [if_pos hh]
      simp only [List.map_cons, hfhd, plistLookup]
      rw [List.find?_cons_of_pos _ (by simp)]
      simp
    · have htl : tl.any (fun kv => kv.1 == k) = true := by
        simp only [List.any_cons, hh, Bool.false_or] at h
        exact h
      have hfhd : (if (hd.1 == k : Bool) then (k, v) else hd) = hd := by
        rw [if_neg (by simp [hh])]
      have h2 := ih htl
      simp only [plistLookup] at h2
      simp only [List.map_cons, hfhd, plistLookup]
      rw [List.find?_cons_of_neg _ (by simp [hh])]
      exact h2

theorem findAppend_write (k : String) (v : Int) :
    ∀ p : Plist, p.any (fun kv => kv.1 == k) = false →
      plistLookup (p ++ [(k, v)]) k = some v := by
  intro p
  induction p with
  | nil =>
    intro h
    simp only [List.nil_append, plistLookup]
    rw [List.find?_cons_of_pos _ (by simp)]
    simp
  | cons hd tl ih =>
    intro h
    simp only [List.any_cons, Bool.or_eq_false_iff] at h
    have h2 := ih h.2
    simp only [plistLookup] at h2
    simp only [List.cons_append, plistLookup]
    rw [List.find?_cons_of_neg _ (by simp [h.1])]
    exact h2

theorem plistLookup_plistWrite (p : Plist) (k : String) (v : Int) :
    plistLookup (plistWrite p k v) k = some v := by
  cases hb : p.any (fun kv => kv.1 == k) with
  | true =>
    simp only [plistWrite]
    rw [if_pos hb]
    exact findMap_write k v p hb
  | false =>
    simp only [plistWrite]
    rw [if_neg (by simp [hb])]
    exact findAppend_write k v p hb

/-- C9: the global location flag is written under LocationServicesEnabled
for generations below 14 and under LocationServicesEnabledIn7.0 from
generation 14 on; in particular generation 13 uses the former key and
generation 14 the latter. -/
theorem c9_global_flag_key (b : Bool) (v : Nat) (p : Plist) :
    (v < 14 → plistLookup (enable_global_write b v p) ("LocationServicesEnabled") =
      some (if b then 1 else 0)) ∧
    (14 ≤ v → plistLookup (enable_global_write b v p) ("LocationServicesEnabledIn7.0") =
      some (if b then 1 else 0)) ∧
    plistLookup (enable_global_write b 13 p) ("LocationServicesEnabled") =
      some (if b then 1 else 0) ∧
    plistLookup (enable_global_write b 14 p) ("LocationServicesEnabledIn7.0") =
      some (if b then 1 else 0) := by
  refine ⟨?_, ?_, ?_, ?_⟩
  · intro h
    simp [enable_global_write, h, plistLookup_plistWrite]
  · intro h
    have hnl : ¬ v < 14 := Nat.not_lt.mpr h
    simp [enable_global_write, hnl, plistLookup_plistWrite]
  · have h : (13 : Nat) < 14 := by decide
    simp [enable_global_write, h, plistLookup_plistWrite]
  · have hnl : ¬ (14 : Nat) < 14 := by decide
    simp [enable_global_write, hnl, plistLookup_plistWrite]

/-- Witness for c9_global_flag_key at generations 13 and 14. -/
theorem c9_global_flag_key_witness :
    plistLookup (enable_global_write true 13 []) ("LocationServicesEnabled") = some 1 ∧
    plistLookup (enable_global_write true 14 []) ("LocationServicesEnabledIn7.0") = some 1 :=
  ⟨(c9_global_flag_key true 13 []).1 (by decide),
   (c9_global_flag_key true 14 []).2.1 (by decide)⟩

/-- C10 counterexample: when a row for (kTCCServiceAddressBook,
com.apple.Safari) already exists, insert replaces it and remove then
deletes it, so the final store differs from the initial one. -/
theorem c10_counterexample :
    TCCEdit.insert sess13 st13pre (some ("com.apple.Safari")) none = .ok st13ins ∧
    TCCEdit.remove sess13 st13ins (some ("com.apple.Safari")) none = .ok st13 ∧
    st13 ≠ st13pre :=
  ⟨rfl, rfl, by decide⟩

/-- C10 (amended): insert followed immediately by remove of the same
(target, service) pair restores the exact prior store state, provided no
access row for (service_name, target) existed before the insert. -/
theorem c10_insert_remove_roundtrip_amended (sess : TCCSession) (st : TCCState)
    (t sv name cls : String) (minv : Nat) (tbl : Table)
    (hsvc : sess.service = some sv) (hsv : sv ≠ "")
    (hlook : lookupService (pyLower sv) = some (name, cls, minv))
    (hver : minv ≤ sess.version)
    (hconn : connectionFor st cls = some tbl)
    (hcols : (insertValues sess.version name (resolveTarget sess t)).length = tbl.ncols)
    (habsent : ∀ r ∈ tbl.rows,
      rowMatches (.textV name) (.textV (resolveTarget sess t)) r = false) :
    ∃ st1, TCCEdit.insert sess st (some t) none = .ok st1 ∧
      TCCEdit.remove sess st1 (some t) none = .ok st := by
  refine ⟨_, insert_absent_ok sess st t sv name cls minv tbl hsvc hsv hlook hver hconn
    hcols habsent, ?_⟩
  have hs := serviceToUse_default sess sv hsvc hsv
  have hconn2 := connectionFor_setConnection st cls
    { tbl with rows := tbl.rows ++ [insertValues sess.version name (resolveTarget sess t)] }
  have hfil : tbl.rows.filter
      (fun r => !(rowMatches (.textV name) (.textV (resolveTarget sess t)) r)) = tbl.rows :=
    List.filter_eq_self.mpr (fun r hr => by rw [habsent r hr]; rfl)
  have hdel : execDelete
      { tbl with rows := tbl.rows ++ [insertValues sess.version name (resolveTarget sess t)] }
      (.textV name) (.textV (resolveTarget sess t)) = tbl := by
    simp only [execDelete, List.filter_append, hfil]
    rw [show (([insertValues sess.version name (resolveTarget sess t)]).filter
      (fun r => !(rowMatches (.textV name) (.textV (resolveTarget sess t)) r))) = [] by
        simp [List.filter, rowMatches_insertValues]]
    simp
  simp [TCCEdit.remove, hs, hlook, hconn2, hdel, setConnection_setConnection,
    setConnection_eq_self st cls tbl hconn]

/-- Witness for c10_insert_remove_roundtrip_amended at the concrete
generation-13 scenario starting from an empty store. -/
theorem c10_insert_remove_roundtrip_amended_witness :
    ∃ st1, TCCEdit.insert sess13 st13 (some ("com.apple.Safari")) none = .ok st1 ∧
      TCCEdit.remove sess13 st1 (some ("com.apple.Safari")) none = .ok st13 :=
  c10_insert_remove_roundtrip_amended sess13 st13 ("com.apple.Safari") ("contacts")
    ("kTCCServiceAddressBook") ("local") 12 (createAccessTable 13)
    rfl (by decide) (by decide) (by decide) rfl (by decide)
    (by simp [createAccessTable])
